import Mathlib

/-!
# RPC service of the trading daemon (`engine/rpcserver.go`) and its command-line client
(`cmd/gctcli/main.go`)

A shallow embedding of the gRPC handlers of `RPCServer` and of the `getexchanges` command.

Conventions of the embedding.

* A Go pointer `*T` is `Option T`; `none` is the nil pointer.  Reading a field through a nil
  pointer is a run-time panic, `Outcome.panic`.
* A Go slice is a `List`; `append(xs, x)` is `xs ++ [x]`.
* A Go `error` is `Option GoError`; `none` is the nil error.
* `float64` values are only ever copied by this code; they are carried as their bit pattern.
* The functions of the daemon that the handlers call (`GetExchanges`, `LoadExchange`,
  `GetSpecificTicker`, ...) live outside these two files.  They are the fields of `Engine`,
  and every handler takes the engine as a parameter.  Those functions read and write
  process-wide state, which is threaded explicitly as a value of type `σ`.
* The receiver `s *RPCServer` is a pointer to an empty struct and is never read; it is omitted.
-/

set_option autoImplicit false
set_option linter.dupNamespace false

/-! ## Go run-time values -/

/-- A Go `error` value, identified by its message. -/
structure GoError where
  msg : String
deriving DecidableEq, Repr

/-- A `float64`, carried as its IEEE-754 bit pattern; the code copies these values and never
computes with them. -/
structure Float64 where
  bits : Nat
deriving DecidableEq, Repr

/-- Result of running a handler body: it either panics (nil pointer dereference) or returns. -/
inductive Outcome (α : Type) where
  | panic : Outcome α
  | ret : α → Outcome α
deriving DecidableEq, Repr

/-- What a gRPC handler returns: a response pointer and an error. -/
abbrev Reply (Resp : Type) := Option Resp × Option GoError

/-- The zero value of a message type, as built by the composite literal `T{}`. -/
class GoZero (α : Type) where
  zero : α

/-- The Go standard library `time.Time`, as an instant given by whole seconds since the Unix
epoch (possibly negative) and the nanoseconds elapsed within that second. -/
structure time.Time where
  sec : Int
  nsec : Nat
deriving DecidableEq, Repr

/-- The method `Time.Unix`: the number of seconds elapsed since January 1, 1970 UTC. -/
def time.Time.Unix (t : time.Time) : Int := t.sec

/-- The method `Time.UnixNano`, without the 64-bit range limit: the instant in nanoseconds since
the Unix epoch. -/
def time.Time.UnixNano (t : time.Time) : Int := t.sec * 1000000000 + t.nsec

/-- The function `fmt.Errorf` applied to a format string without verbs. -/
def fmt.Errorf (format : String) : GoError := ⟨format⟩

/-! ## Package `common` -/

/-- Modelled from the spec: `common.ErrNotYetImplemented` is a package-level variable declared
outside the two source files; the spec calls it the one reserved sentinel error, the fixed
"not yet implemented" error. -/
def common.ErrNotYetImplemented : GoError := ⟨"not yet implemented"⟩

/-- Modelled from the spec: `common.JoinStrings` is declared outside the two source files; the
spec describes what `GetExchanges` returns through it as the comma-joined exchange name list,
empty if none match.  The elements are written in order, each one after the first preceded by
the separator. -/
def common.JoinStrings (input : List String) (separator : String) : String :=
  match input with
  | [] => ""
  | x :: xs => xs.foldl (fun acc e => acc ++ separator ++ e) x

/-! ## Internal domain types (packages `pair`, `assets`, `ticker`, `orderbook`, `events`) -/

/-- The named string type `pair.CurrencyItem`; the conversion `pair.CurrencyItem(s)` is the
constructor. -/
structure pair.CurrencyItem where
  s : String
deriving DecidableEq, Repr

/-- Modelled from the spec: the method `CurrencyItem.String` is declared outside the two source
files; the spec requires the translation of a currency pair to lose nothing of its three
sub-fields, the method returns the string the item was converted from. -/
def pair.CurrencyItem.String (c : pair.CurrencyItem) : String := c.s

/-- The struct `pair.CurrencyPair`, with the fields the handlers use. -/
structure pair.CurrencyPair where
  Delimiter : String
  FirstCurrency : pair.CurrencyItem
  SecondCurrency : pair.CurrencyItem
deriving DecidableEq, Repr

/-- The named string type `assets.AssetType`; the conversion `assets.AssetType(s)` is the
constructor. -/
structure assets.AssetType where
  s : String
deriving DecidableEq, Repr

/-- The struct `ticker.Price`, with the fields the handlers read. -/
structure ticker.Price where
  Pair : pair.CurrencyPair
  CurrencyPair : String
  LastUpdated : time.Time
  Last : Float64
  High : Float64
  Low : Float64
  Bid : Float64
  Ask : Float64
  Volume : Float64
  PriceATH : Float64
deriving DecidableEq, Repr

/-- An element of `GetAllActiveTickers()`: an exchange name and its tickers. -/
structure EnabledExchangeCurrencies where
  ExchangeName : String
  ExchangeValues : List ticker.Price
deriving DecidableEq, Repr

/-- The struct `orderbook.Item`. -/
structure orderbook.Item where
  Amount : Float64
  Price : Float64
deriving DecidableEq, Repr

/-- The struct `orderbook.Base`, with the fields the handlers read. -/
structure orderbook.Base where
  Bids : List orderbook.Item
  Asks : List orderbook.Item
  LastUpdated : time.Time
deriving DecidableEq, Repr

/-- The struct `events.ConditionParams`. -/
structure events.ConditionParams where
  CheckBids : Bool
  CheckBidsAndAsks : Bool
  Condition : String
  OrderbookAmount : Float64
  Price : Float64
deriving DecidableEq, Repr

/-- A Go `map[string]float64`; `none` is the nil map. -/
abbrev RatesMap := Option (List (String × Float64))

/-! ## Wire types (package `gctrpc`), with the fields the handlers use -/

structure gctrpc.GetExchangesRequest where
  Enabled : Bool
deriving DecidableEq, Repr

structure gctrpc.GetExchangesResponse where
  Exchanges : String
deriving DecidableEq, Repr

structure gctrpc.GenericExchangeNameRequest where
  Exchange : String
deriving DecidableEq, Repr

structure gctrpc.CurrencyPair where
  Delimiter : String
  FirstCurrency : String
  SecondCurrency : String
deriving DecidableEq, Repr

structure gctrpc.GetTickerRequest where
  Exchange : String
  Pair : Option gctrpc.CurrencyPair
  AssetType : String
deriving DecidableEq, Repr

structure gctrpc.TickerResponse where
  Pair : Option gctrpc.CurrencyPair
  LastUpdated : Int
  CurrencyPair : String
  Last : Float64
  High : Float64
  Low : Float64
  Bid : Float64
  Ask : Float64
  Volume : Float64
  PriceAth : Float64
deriving DecidableEq, Repr

structure gctrpc.Tickers where
  Exchange : String
  Tickers : List (Option gctrpc.TickerResponse)
deriving DecidableEq, Repr

structure gctrpc.GetTickersResponse where
  Tickers : List (Option gctrpc.Tickers)
deriving DecidableEq, Repr

structure gctrpc.GetOrderbookRequest where
  Exchange : String
  Pair : Option gctrpc.CurrencyPair
  AssetType : String
deriving DecidableEq, Repr

structure gctrpc.OrderbookItem where
  Amount : Float64
  Price : Float64
deriving DecidableEq, Repr

structure gctrpc.GetOrderbookResponse where
  Pair : Option gctrpc.CurrencyPair
  Bids : List (Option gctrpc.OrderbookItem)
  Asks : List (Option gctrpc.OrderbookItem)
  LastUpdated : Int
  AssetType : String
deriving DecidableEq, Repr

structure gctrpc.GetForexRatesResponse where
  ForexRates : RatesMap
deriving DecidableEq, Repr

structure gctrpc.ConditionParams where
  CheckBids : Bool
  CheckBidsAndAsks : Bool
  Condition : String
  OrderbookAmount : Float64
  Price : Float64
deriving DecidableEq, Repr

structure gctrpc.AddEventRequest where
  Exchange : String
  Item : String
  ConditionParams : Option gctrpc.ConditionParams
  Pair : Option gctrpc.CurrencyPair
  AssetType : String
  Action : String
deriving DecidableEq, Repr

structure gctrpc.AddEventResponse where
  Id : Int
deriving DecidableEq, Repr

/-! ## The engine functions the handlers call -/

/-- The functions of the daemon called by the handlers, each acting on the process-wide state
`σ`.  `LoadExchange` takes the exchange name, a flag and a pointer the handler passes as nil. -/
structure Engine (σ : Type) where
  GetExchanges : Bool → σ → List String × σ
  UnloadExchange : String → σ → Option GoError × σ
  LoadExchange : String → Bool → Option Unit → σ → Option GoError × σ
  GetSpecificTicker : pair.CurrencyPair → String → assets.AssetType → σ →
    (ticker.Price × Option GoError) × σ
  GetAllActiveTickers : σ → List EnabledExchangeCurrencies × σ
  GetSpecificOrderbook : pair.CurrencyPair → String → assets.AssetType → σ →
    (orderbook.Base × Option GoError) × σ
  GetExchangeRates : σ → RatesMap × σ
  eventsAdd : String → String → events.ConditionParams → pair.CurrencyPair →
    assets.AssetType → String → σ → (Int × Option GoError) × σ

/-! ## The handlers of `RPCServer` -/

section Handlers

variable {σ Ctx : Type}

/-- The wire-to-internal translation of a currency pair, written inline as a composite literal
in `GetTicker`, `GetOrderbook` and `AddEvent`. -/
def decodePair (p : gctrpc.CurrencyPair) : pair.CurrencyPair :=
  { Delimiter := p.Delimiter
    FirstCurrency := pair.CurrencyItem.mk p.FirstCurrency
    SecondCurrency := pair.CurrencyItem.mk p.SecondCurrency }

/-- The internal-to-wire translation of a currency pair, written inline as a composite literal
in `GetTickers`. -/
def encodePair (p : pair.CurrencyPair) : gctrpc.CurrencyPair :=
  { Delimiter := p.Delimiter
    FirstCurrency := p.FirstCurrency.String
    SecondCurrency := p.SecondCurrency.String }

def RPCServer.GetExchanges (E : Engine σ) (_ctx : Ctx) (r : Option gctrpc.GetExchangesRequest)
    (s : σ) : Outcome (Reply gctrpc.GetExchangesResponse) × σ :=
  match r with
  | none => (.panic, s)
  | some r =>
    let (names, s1) := E.GetExchanges r.Enabled s
    let exchanges := common.JoinStrings names ","
    (.ret (some { Exchanges := exchanges }, none), s1)

def RPCServer.DisableExchange {GenericExchangeNameResponse : Type}
    [GoZero GenericExchangeNameResponse] (E : Engine σ) (_ctx : Ctx)
    (r : Option gctrpc.GenericExchangeNameRequest) (s : σ) :
    Outcome (Reply GenericExchangeNameResponse) × σ :=
  match r with
  | none => (.panic, s)
  | some r =>
    let (err, s1) := E.UnloadExchange r.Exchange s
    (.ret (some GoZero.zero, err), s1)

def RPCServer.EnableExchange {GenericExchangeNameResponse : Type}
    [GoZero GenericExchangeNameResponse] (E : Engine σ) (_ctx : Ctx)
    (r : Option gctrpc.GenericExchangeNameRequest) (s : σ) :
    Outcome (Reply GenericExchangeNameResponse) × σ :=
  match r with
  | none => (.panic, s)
  | some r =>
    let (err, s1) := E.LoadExchange r.Exchange false none s
    (.ret (some GoZero.zero, err), s1)

def RPCServer.GetTicker (E : Engine σ) (_ctx : Ctx) (r : Option gctrpc.GetTickerRequest)
    (s : σ) : Outcome (Reply gctrpc.TickerResponse) × σ :=
  match r with
  | none => (.panic, s)
  | some r =>
    match r.Pair with
    | none => (.panic, s)
    | some p =>
      let ((t, err), s1) :=
        E.GetSpecificTicker (decodePair p) r.Exchange (assets.AssetType.mk r.AssetType) s
      match err with
      | some e => (.ret (none, some e), s1)
      | none =>
        let resp : gctrpc.TickerResponse :=
          { Pair := r.Pair
            LastUpdated := t.LastUpdated.Unix
            CurrencyPair := t.CurrencyPair
            Last := t.Last
            High := t.High
            Low := t.Low
            Bid := t.Bid
            Ask := t.Ask
            Volume := t.Volume
            PriceAth := t.PriceATH }
        (.ret (some resp, none), s1)

/-- The body of the inner loop of `GetTickers`: the response appended for one ticker. -/
def tickerToWire (t : ticker.Price) : gctrpc.TickerResponse :=
  { Pair := some (encodePair t.Pair)
    LastUpdated := t.LastUpdated.Unix
    CurrencyPair := t.CurrencyPair
    Last := t.Last
    High := t.High
    Low := t.Low
    Bid := t.Bid
    Ask := t.Ask
    Volume := t.Volume
    PriceAth := t.PriceATH }

/-- The body of the outer loop of `GetTickers`: a fresh `ticker` variable is declared, its
exchange name is set, the inner loop appends one response per ticker, and the address of the
variable is appended to `tickers`. -/
def tickersStep (tickers : List (Option gctrpc.Tickers)) (a : EnabledExchangeCurrencies) :
    List (Option gctrpc.Tickers) :=
  let ticker : gctrpc.Tickers := { Exchange := "", Tickers := [] }
  let ticker := { ticker with Exchange := a.ExchangeName }
  let ticker := a.ExchangeValues.foldl
    (fun (tk : gctrpc.Tickers) t => { tk with Tickers := tk.Tickers ++ [some (tickerToWire t)] })
    ticker
  tickers ++ [some ticker]

def RPCServer.GetTickers {GetTickersRequest : Type} (E : Engine σ) (_ctx : Ctx)
    (_r : Option GetTickersRequest) (s : σ) :
    Outcome (Reply gctrpc.GetTickersResponse) × σ :=
  let (activeTickers, s1) := E.GetAllActiveTickers s
  let tickers := activeTickers.foldl tickersStep []
  (.ret (some { Tickers := tickers }, none), s1)

def RPCServer.GetOrderbook (E : Engine σ) (_ctx : Ctx) (r : Option gctrpc.GetOrderbookRequest)
    (s : σ) : Outcome (Reply gctrpc.GetOrderbookResponse) × σ :=
  match r with
  | none => (.panic, s)
  | some r =>
    match r.Pair with
    | none => (.panic, s)
    | some p =>
      let ((ob, err), s1) :=
        E.GetSpecificOrderbook (decodePair p) r.Exchange (assets.AssetType.mk r.AssetType) s
      match err with
      | some e => (.ret (none, some e), s1)
      | none =>
        let bids := ob.Bids.foldl
          (fun (acc : List (Option gctrpc.OrderbookItem)) x =>
            acc ++ [some { Amount := x.Amount, Price := x.Price }]) []
        let asks := ob.Asks.foldl
          (fun (acc : List (Option gctrpc.OrderbookItem)) x =>
            acc ++ [some { Amount := x.Amount, Price := x.Price }]) []
        let resp : gctrpc.GetOrderbookResponse :=
          { Pair := r.Pair
            Bids := bids
            Asks := asks
            LastUpdated := ob.LastUpdated.Unix
            AssetType := r.AssetType }
        (.ret (some resp, none), s1)

def RPCServer.GetForexRates {GetForexRatesRequest : Type} (E : Engine σ) (_ctx : Ctx)
    (_r : Option GetForexRatesRequest) (s : σ) :
    Outcome (Reply gctrpc.GetForexRatesResponse) × σ :=
  let (rates, s1) := E.GetExchangeRates s
  match rates with
  | none => (.ret (none, some (fmt.Errorf "forex rates is empty")), s1)
  | some m => (.ret (some { ForexRates := some m }, none), s1)

def RPCServer.AddEvent (E : Engine σ) (_ctx : Ctx) (r : Option gctrpc.AddEventRequest)
    (s : σ) : Outcome (Reply gctrpc.AddEventResponse) × σ :=
  match r with
  | none => (.panic, s)
  | some r =>
    match r.ConditionParams with
    | none => (.panic, s)
    | some c =>
      let evtCondition : events.ConditionParams :=
        { CheckBids := c.CheckBids
          CheckBidsAndAsks := c.CheckBidsAndAsks
          Condition := c.Condition
          OrderbookAmount := c.OrderbookAmount
          Price := c.Price }
      match r.Pair with
      | none => (.panic, s)
      | some rp =>
        let p := decodePair rp
        let ((id, err), s1) :=
          E.eventsAdd r.Exchange r.Item evtCondition p (assets.AssetType.mk r.AssetType) r.Action s
        match err with
        | some e => (.ret (none, some e), s1)
        | none => (.ret (some { Id := id }, none), s1)

/-! ### The operations that are declared and not implemented

Their request and response types are declared outside the two source files; they are type
parameters, the response type with its zero value. -/

def RPCServer.GetOrderbooks {Req Resp : Type} [GoZero Resp] (_ctx : Ctx) (_r : Option Req)
    (s : σ) : Outcome (Reply Resp) × σ :=
  (.ret (some GoZero.zero, some common.ErrNotYetImplemented), s)

def RPCServer.GetConfig {Req Resp : Type} [GoZero Resp] (_ctx : Ctx) (_r : Option Req)
    (s : σ) : Outcome (Reply Resp) × σ :=
  (.ret (some GoZero.zero, some common.ErrNotYetImplemented), s)

def RPCServer.GetOrders {Req Resp : Type} [GoZero Resp] (_ctx : Ctx) (_r : Option Req)
    (s : σ) : Outcome (Reply Resp) × σ :=
  (.ret (some GoZero.zero, some common.ErrNotYetImplemented), s)

def RPCServer.GetOrder {Req Resp : Type} [GoZero Resp] (_ctx : Ctx) (_r : Option Req)
    (s : σ) : Outcome (Reply Resp) × σ :=
  (.ret (some GoZero.zero, some common.ErrNotYetImplemented), s)

def RPCServer.SubmitOrder {Req Resp : Type} [GoZero Resp] (_ctx : Ctx) (_r : Option Req)
    (s : σ) : Outcome (Reply Resp) × σ :=
  (.ret (some GoZero.zero, some common.ErrNotYetImplemented), s)

def RPCServer.CancelOrder {Req Resp : Type} [GoZero Resp] (_ctx : Ctx) (_r : Option Req)
    (s : σ) : Outcome (Reply Resp) × σ :=
  (.ret (some GoZero.zero, some common.ErrNotYetImplemented), s)

def RPCServer.CancelAllOrders {Req Resp : Type} [GoZero Resp] (_ctx : Ctx) (_r : Option Req)
    (s : σ) : Outcome (Reply Resp) × σ :=
  (.ret (some GoZero.zero, some common.ErrNotYetImplemented), s)

def RPCServer.GetEvents {Req Resp : Type} [GoZero Resp] (_ctx : Ctx) (_r : Option Req)
    (s : σ) : Outcome (Reply Resp) × σ :=
  (.ret (some GoZero.zero, some common.ErrNotYetImplemented), s)

def RPCServer.GetCryptocurrencyDepositAddresses {Req Resp : Type} [GoZero Resp] (_ctx : Ctx)
    (_r : Option Req) (s : σ) : Outcome (Reply Resp) × σ :=
  (.ret (some GoZero.zero, some common.ErrNotYetImplemented), s)

def RPCServer.GetCryptocurrencyDepositAddress {Req Resp : Type} [GoZero Resp] (_ctx : Ctx)
    (_r : Option Req) (s : σ) : Outcome (Reply Resp) × σ :=
  (.ret (some GoZero.zero, some common.ErrNotYetImplemented), s)

def RPCServer.WithdrawCryptocurrencyFunds {Req Resp : Type} [GoZero Resp] (_ctx : Ctx)
    (_r : Option Req) (s : σ) : Outcome (Reply Resp) × σ :=
  (.ret (some GoZero.zero, some common.ErrNotYetImplemented), s)

def RPCServer.WithdrawFiatFunds {Req Resp : Type} [GoZero Resp] (_ctx : Ctx)
    (_r : Option Req) (s : σ) : Outcome (Reply Resp) × σ :=
  (.ret (some GoZero.zero, some common.ErrNotYetImplemented), s)

end Handlers

/-! ## The command-line client (`cmd/gctcli/main.go`) -/

/-- The command line of one invocation as `cli.Context` presents it: every flag that was given
on the command line, with the boolean value it was given (`--enabled` and `--enabled=true` give
true, `--enabled=false` gives false).  A flag that was omitted has no entry. -/
structure cli.Context where
  flags : List (String × Bool)
deriving DecidableEq, Repr

/-- The method `Context.IsSet` of the command-line library: whether the flag was given on the
command line. -/
def cli.Context.IsSet (c : cli.Context) (name : String) : Bool :=
  (c.flags.lookup name).isSome

/-- The method `Context.Bool` of the command-line library: the value of a boolean flag, false
when the flag was not given. -/
def cli.Context.Bool (c : cli.Context) (name : String) : Bool :=
  (c.flags.lookup name).getD false

/-- How `getExchanges` ends: the process is terminated by `log.Fatalf`, or the function returns
an error or nil to the caller. -/
inductive CliResult where
  | fatal : String → CliResult
  | returned : Option GoError → CliResult
deriving DecidableEq, Repr

/-- The observable behaviour of one run of `getExchanges`: the requests sent over the
connection, the values handed to `jsonOutput`, and how the run ended. -/
structure CliRun where
  sent : List gctrpc.GetExchangesRequest
  printed : List (Option gctrpc.GetExchangesResponse)
  result : CliResult
deriving DecidableEq, Repr

/-- The action of the `getexchanges` command.  `dial` is the error result of `grpc.Dial` and
`client` the remote call `client.GetExchanges`. -/
def getExchanges (dial : Option GoError)
    (client : gctrpc.GetExchangesRequest → Reply gctrpc.GetExchangesResponse)
    (c : cli.Context) : CliRun :=
  match dial with
  | some e =>
    { sent := [], printed := []
      result := .fatal ("Unable to connect to gRPC server. Err: " ++ e.msg) }
  | none =>
    let req : gctrpc.GetExchangesRequest := { Enabled := c.IsSet "enabled" }
    let (result, err) := client req
    match err with
    | some e => { sent := [req], printed := [], result := .returned (some e) }
    | none => { sent := [req], printed := [result], result := .returned none }

/-! ## An engine for concrete evaluation -/

/-- State of the example engine: the configured exchanges with their enabled flag, and the names
of the engine functions invoked so far. -/
structure ExampleState where
  exchanges : List (String × Bool)
  calls : List String
deriving DecidableEq, Repr

/-- An empty response message. -/
structure EmptyMessage where
deriving DecidableEq, Repr

instance : GoZero EmptyMessage := ⟨{}⟩

/-- The ticker the example engine reports. -/
def exampleTicker (p : pair.CurrencyPair) : ticker.Price :=
  { Pair := p, CurrencyPair := "BTCUSD", LastUpdated := ⟨-2, 750000000⟩
    Last := ⟨1⟩, High := ⟨2⟩, Low := ⟨3⟩, Bid := ⟨4⟩, Ask := ⟨5⟩, Volume := ⟨6⟩, PriceATH := ⟨7⟩ }

/-- The orderbook the example engine reports. -/
def exampleOrderbook : orderbook.Base :=
  { Bids := [⟨⟨10⟩, ⟨11⟩⟩, ⟨⟨12⟩, ⟨13⟩⟩], Asks := [⟨⟨20⟩, ⟨21⟩⟩]
    LastUpdated := ⟨5, 999999999⟩ }

/-- Modelled from the spec: the engine functions are declared outside the two source files.
This instance follows the engine contract of the spec: `ListExchanges(enabledOnly bool)` gives
the list of names, all of them or only the enabled ones; loading or unloading fails for a name
the engine does not know; a ticker or orderbook query fails when the exchange has no data; the
rates are unavailable (nil) when no exchange is configured.  Every call is recorded. -/
def exampleEngine : Engine ExampleState where
  GetExchanges := fun enabled s =>
    (((s.exchanges.filter (fun e => !enabled || e.2)).map Prod.fst),
      { s with calls := s.calls ++ ["GetExchanges"] })
  UnloadExchange := fun name s =>
    if s.exchanges.any (fun e => e.1 == name && e.2) then
      (none, { exchanges := s.exchanges.map (fun e => if e.1 == name then (e.1, false) else e)
               calls := s.calls ++ ["UnloadExchange"] })
    else (some ⟨"exchange not found"⟩, { s with calls := s.calls ++ ["UnloadExchange"] })
  LoadExchange := fun name _ _ s =>
    if s.exchanges.any (fun e => e.1 == name) then
      (none, { exchanges := s.exchanges.map (fun e => if e.1 == name then (e.1, true) else e)
               calls := s.calls ++ ["LoadExchange"] })
    else (some ⟨"exchange not found"⟩, { s with calls := s.calls ++ ["LoadExchange"] })
  GetSpecificTicker := fun p exch _ s =>
    let s1 := { s with calls := s.calls ++ ["GetSpecificTicker"] }
    if s.exchanges.any (fun e => e.1 == exch && e.2) then ((exampleTicker p, none), s1)
    else ((exampleTicker p, some ⟨"no ticker data"⟩), s1)
  GetAllActiveTickers := fun s =>
    (((s.exchanges.filter (fun e => e.2)).map
        (fun e => { ExchangeName := e.1, ExchangeValues := [exampleTicker ⟨"-", ⟨"BTC"⟩, ⟨"USD"⟩⟩] })),
      { s with calls := s.calls ++ ["GetAllActiveTickers"] })
  GetSpecificOrderbook := fun _ exch _ s =>
    let s1 := { s with calls := s.calls ++ ["GetSpecificOrderbook"] }
    if s.exchanges.any (fun e => e.1 == exch && e.2) then ((exampleOrderbook, none), s1)
    else ((exampleOrderbook, some ⟨"no orderbook data"⟩), s1)
  GetExchangeRates := fun s =>
    ((if s.exchanges.isEmpty then none else some [("USD", ⟨1⟩), ("EUR", ⟨2⟩)]),
      { s with calls := s.calls ++ ["GetExchangeRates"] })
  eventsAdd := fun exch _ _ _ _ _ s =>
    let s1 := { s with calls := s.calls ++ ["events.Add"] }
    if s.exchanges.any (fun e => e.1 == exch && e.2) then ((s.calls.length, none), s1)
    else ((0, some ⟨"invalid exchange"⟩), s1)

/-- The configuration of the scenario: exchange A enabled, exchange B disabled. -/
def exampleState : ExampleState := { exchanges := [("A", true), ("B", false)], calls := [] }

/-! ## Auxiliary lemmas -/

theorem foldl_append_singleton {α β : Type} (f : α → β) (xs : List α) (init : List β) :
    xs.foldl (fun acc x => acc ++ [f x]) init = init ++ xs.map f := by
  induction xs generalizing init with
  | nil => simp
  | cons x xs ih => simp [List.foldl_cons, ih]

theorem joinStrings_go (sep : String) (xs : List String) (acc : String) :
    xs.foldl (fun a e => a ++ sep ++ e) acc = String.intercalate.go acc sep xs := by
  induction xs generalizing acc with
  | nil => rfl
  | cons x xs ih => simp [List.foldl_cons, String.intercalate.go, ih]

theorem joinStrings_eq_intercalate (sep : String) (xs : List String) :
    common.JoinStrings xs sep = sep.intercalate xs := by
  cases xs with
  | nil => rfl
  | cons x xs => simp [common.JoinStrings, String.intercalate, joinStrings_go]

theorem joinStrings_fold_data (sep : String) (xs : List String) (acc : String) :
    (xs.foldl (fun a e => a ++ sep ++ e) acc).data
      = acc.data ++ (xs.map (fun e => sep.data ++ e.data)).flatten := by
  induction xs generalizing acc with
  | nil => simp
  | cons x xs ih => simp [List.foldl_cons, ih, List.append_assoc]

theorem intersperse_flatten_cons {α : Type} (sep x : List α) (xs : List (List α)) :
    (List.intersperse sep (x :: xs)).flatten = x ++ (xs.map (fun e => sep ++ e)).flatten := by
  induction xs generalizing x with
  | nil => simp
  | cons y ys ih =>
    rw [List.intersperse_cons₂, List.flatten_cons, List.flatten_cons, ih]
    simp

theorem joinStrings_data (sep : String) (xs : List String) :
    (common.JoinStrings xs sep).data = List.intercalate sep.data (xs.map String.data) := by
  cases xs with
  | nil => rfl
  | cons x xs =>
    simp only [common.JoinStrings, joinStrings_fold_data, List.intercalate, List.map_cons,
      intersperse_flatten_cons, List.map_map]
    rfl

theorem joinStrings_length (sep : String) (xs : List String) :
    (common.JoinStrings xs sep).length
      = (xs.map String.length).sum + (xs.length - 1) * sep.length := by
  cases xs with
  | nil => simp [common.JoinStrings]
  | cons x xs =>
    have h : ∀ (ys : List String) (acc : String),
        (ys.foldl (fun a e => a ++ sep ++ e) acc).length
          = acc.length + (ys.map String.length).sum + ys.length * sep.length := by
      intro ys
      induction ys with
      | nil => intro acc; simp
      | cons y ys ih =>
        intro acc
        simp only [List.foldl_cons, ih, String.length_append, List.map_cons, List.sum_cons,
          List.length_cons]
        ring
    simp only [common.JoinStrings, h, List.map_cons, List.sum_cons, List.length_cons,
      Nat.add_sub_cancel]

theorem getTicker_ok {σ Ctx : Type} (E : Engine σ) (ctx : Ctx) (s s1 : σ)
    (r : gctrpc.GetTickerRequest) (p : gctrpc.CurrencyPair) (t : ticker.Price)
    (hp : r.Pair = some p)
    (hT : E.GetSpecificTicker (decodePair p) r.Exchange ⟨r.AssetType⟩ s = ((t, none), s1)) :
    RPCServer.GetTicker E ctx (some r) s
      = (.ret (some { Pair := r.Pair, LastUpdated := t.LastUpdated.Unix
                      CurrencyPair := t.CurrencyPair, Last := t.Last, High := t.High
                      Low := t.Low, Bid := t.Bid, Ask := t.Ask, Volume := t.Volume
                      PriceAth := t.PriceATH }, none), s1) := by
  simp [RPCServer.GetTicker, hp, hT]

theorem getTicker_err {σ Ctx : Type} (E : Engine σ) (ctx : Ctx) (s s1 : σ)
    (r : gctrpc.GetTickerRequest) (p : gctrpc.CurrencyPair) (t : ticker.Price) (e : GoError)
    (hp : r.Pair = some p)
    (hT : E.GetSpecificTicker (decodePair p) r.Exchange ⟨r.AssetType⟩ s = ((t, some e), s1)) :
    RPCServer.GetTicker E ctx (some r) s = (.ret (none, some e), s1) := by
  simp [RPCServer.GetTicker, hp, hT]

theorem getOrderbook_ok {σ Ctx : Type} (E : Engine σ) (ctx : Ctx) (s s1 : σ)
    (r : gctrpc.GetOrderbookRequest) (p : gctrpc.CurrencyPair) (ob : orderbook.Base)
    (hp : r.Pair = some p)
    (hO : E.GetSpecificOrderbook (decodePair p) r.Exchange ⟨r.AssetType⟩ s
      = ((ob, none), s1)) :
    RPCServer.GetOrderbook E ctx (some r) s
      = (.ret (some { Pair := r.Pair
                      Bids := ob.Bids.map (fun x => some { Amount := x.Amount, Price := x.Price })
                      Asks := ob.Asks.map (fun x => some { Amount := x.Amount, Price := x.Price })
                      LastUpdated := ob.LastUpdated.Unix
                      AssetType := r.AssetType }, none), s1) := by
  simp [RPCServer.GetOrderbook, hp, hO, foldl_append_singleton]

theorem getOrderbook_err {σ Ctx : Type} (E : Engine σ) (ctx : Ctx) (s s1 : σ)
    (r : gctrpc.GetOrderbookRequest) (p : gctrpc.CurrencyPair) (ob : orderbook.Base)
    (e : GoError) (hp : r.Pair = some p)
    (hO : E.GetSpecificOrderbook (decodePair p) r.Exchange ⟨r.AssetType⟩ s
      = ((ob, some e), s1)) :
    RPCServer.GetOrderbook E ctx (some r) s = (.ret (none, some e), s1) := by
  simp [RPCServer.GetOrderbook, hp, hO]

theorem addEvent_result {σ Ctx : Type} (E : Engine σ) (ctx : Ctx) (s s1 : σ)
    (r : gctrpc.AddEventRequest) (p : gctrpc.CurrencyPair) (c : gctrpc.ConditionParams)
    (id : Int) (err : Option GoError) (hp : r.Pair = some p)
    (hc : r.ConditionParams = some c)
    (hA : E.eventsAdd r.Exchange r.Item
        ⟨c.CheckBids, c.CheckBidsAndAsks, c.Condition, c.OrderbookAmount, c.Price⟩
        (decodePair p) ⟨r.AssetType⟩ r.Action s = ((id, err), s1)) :
    RPCServer.AddEvent E ctx (some r) s
      = (.ret (match err with
               | some e => (none, some e)
               | none => (some { Id := id }, none)), s1) := by
  cases err <;> simp [RPCServer.AddEvent, hp, hc, hA]

theorem tickers_inner_loop (vals : List ticker.Price) (tk : gctrpc.Tickers) :
    vals.foldl
        (fun (tk : gctrpc.Tickers) t =>
          { tk with Tickers := tk.Tickers ++ [some (tickerToWire t)] }) tk
      = { tk with Tickers := tk.Tickers ++ vals.map (fun t => some (tickerToWire t)) } := by
  induction vals generalizing tk with
  | nil => simp
  | cons v vs ih => simp [List.foldl_cons, ih]

theorem tickersStep_eq (acc : List (Option gctrpc.Tickers)) (a : EnabledExchangeCurrencies) :
    tickersStep acc a
      = acc ++ [some { Exchange := a.ExchangeName
                       Tickers := a.ExchangeValues.map (fun t => some (tickerToWire t)) }] := by
  simp [tickersStep, tickers_inner_loop]

theorem tickers_outer_loop (A : List EnabledExchangeCurrencies) :
    A.foldl tickersStep []
      = A.map (fun a => some { Exchange := a.ExchangeName
                               Tickers := a.ExchangeValues.map
                                 (fun t => some (tickerToWire t)) }) := by
  have h : tickersStep = fun acc a =>
      acc ++ [(fun (a : EnabledExchangeCurrencies) =>
        some ({ Exchange := a.ExchangeName
                Tickers := a.ExchangeValues.map (fun t => some (tickerToWire t)) }
              : gctrpc.Tickers)) a] := by
    funext acc a
    exact tickersStep_eq acc a
  rw [h, foldl_append_singleton]
  simp

theorem getTickers_result {σ Ctx Req : Type} (E : Engine σ) (ctx : Ctx) (r : Option Req)
    (s s1 : σ) (A : List EnabledExchangeCurrencies) (hA : E.GetAllActiveTickers s = (A, s1)) :
    RPCServer.GetTickers E ctx r s
      = (.ret (some { Tickers := A.map (fun a => some { Exchange := a.ExchangeName
                                                        Tickers := a.ExchangeValues.map
                                                          (fun t => some (tickerToWire t)) }) },
          none), s1) := by
  simp [RPCServer.GetTickers, hA, tickers_outer_loop]

/-! ## The claims -/

/-- C1: each of the twelve operations that are declared and not implemented returns, for every
call context, request pointer and engine state, a pointer to the zero value of its response
type together with the sentinel `common.ErrNotYetImplemented`, and leaves the state as it was;
the reply is the same whatever the input. -/
theorem unimplemented_operations_return_sentinel {σ Ctx : Type}
    {GetOrderbooksRequest GetOrderbooksResponse GetConfigRequest GetConfigResponse
      GetOrdersRequest GetOrdersResponse GetOrderRequest OrderDetails
      SubmitOrderRequest SubmitOrderResponse CancelOrderRequest CancelOrderResponse
      CancelAllOrdersRequest CancelAllOrdersResponse GetEventsRequest GetEventsResponse
      GetCryptocurrencyDepositAddressesRequest GetCryptocurrencyDepositAddressesResponse
      GetCryptocurrencyDepositAddressRequest GetCryptocurrencyDepositAddressResponse
      WithdrawCurrencyRequest WithdrawResponse : Type}
    [GoZero GetOrderbooksResponse] [GoZero GetConfigResponse] [GoZero GetOrdersResponse]
    [GoZero OrderDetails] [GoZero SubmitOrderResponse] [GoZero CancelOrderResponse]
    [GoZero CancelAllOrdersResponse] [GoZero GetEventsResponse]
    [GoZero GetCryptocurrencyDepositAddressesResponse]
    [GoZero GetCryptocurrencyDepositAddressResponse] [GoZero WithdrawResponse]
    (ctx : Ctx) (s : σ)
    (r1 : Option GetOrderbooksRequest) (r2 : Option GetConfigRequest)
    (r3 : Option GetOrdersRequest) (r4 : Option GetOrderRequest)
    (r5 : Option SubmitOrderRequest) (r6 : Option CancelOrderRequest)
    (r7 : Option CancelAllOrdersRequest) (r8 : Option GetEventsRequest)
    (r9 : Option GetCryptocurrencyDepositAddressesRequest)
    (r10 : Option GetCryptocurrencyDepositAddressRequest)
    (r11 r12 : Option WithdrawCurrencyRequest) :
    RPCServer.GetOrderbooks ctx r1 s
        = (.ret (some (GoZero.zero : GetOrderbooksResponse), some common.ErrNotYetImplemented), s)
    ∧ RPCServer.GetConfig ctx r2 s
        = (.ret (some (GoZero.zero : GetConfigResponse), some common.ErrNotYetImplemented), s)
    ∧ RPCServer.GetOrders ctx r3 s
        = (.ret (some (GoZero.zero : GetOrdersResponse), some common.ErrNotYetImplemented), s)
    ∧ RPCServer.GetOrder ctx r4 s
        = (.ret (some (GoZero.zero : OrderDetails), some common.ErrNotYetImplemented), s)
    ∧ RPCServer.SubmitOrder ctx r5 s
        = (.ret (some (GoZero.zero : SubmitOrderResponse), some common.ErrNotYetImplemented), s)
    ∧ RPCServer.CancelOrder ctx r6 s
        = (.ret (some (GoZero.zero : CancelOrderResponse), some common.ErrNotYetImplemented), s)
    ∧ RPCServer.CancelAllOrders ctx r7 s
        = (.ret (some (GoZero.zero : CancelAllOrdersResponse),
            some common.ErrNotYetImplemented), s)
    ∧ RPCServer.GetEvents ctx r8 s
        = (.ret (some (GoZero.zero : GetEventsResponse), some common.ErrNotYetImplemented), s)
    ∧ RPCServer.GetCryptocurrencyDepositAddresses ctx r9 s
        = (.ret (some (GoZero.zero : GetCryptocurrencyDepositAddressesResponse),
            some common.ErrNotYetImplemented), s)
    ∧ RPCServer.GetCryptocurrencyDepositAddress ctx r10 s
        = (.ret (some (GoZero.zero : GetCryptocurrencyDepositAddressResponse),
            some common.ErrNotYetImplemented), s)
    ∧ RPCServer.WithdrawCryptocurrencyFunds ctx r11 s
        = (.ret (some (GoZero.zero : WithdrawResponse), some common.ErrNotYetImplemented), s)
    ∧ RPCServer.WithdrawFiatFunds ctx r12 s
        = (.ret (some (GoZero.zero : WithdrawResponse), some common.ErrNotYetImplemented), s) :=
  ⟨rfl, rfl, rfl, rfl, rfl, rfl, rfl, rfl, rfl, rfl, rfl, rfl⟩

/-- C2: when the currency pair of a `GetTicker` or `GetOrderbook` request is nil, or the
condition parameters or the currency pair of an `AddEvent` request are nil, the handler does not
return a validation error: it panics on the nil pointer.  No engine function has been invoked at
that point, the state is the one the handler started with. -/
theorem absent_required_field_panics {σ Ctx : Type} (E : Engine σ) (ctx : Ctx) (s : σ)
    (exchange assetType item action : String) (p : gctrpc.CurrencyPair)
    (c : Option gctrpc.ConditionParams) :
    RPCServer.GetTicker E ctx
        (some { Exchange := exchange, Pair := none, AssetType := assetType }) s = (.panic, s)
    ∧ RPCServer.GetOrderbook E ctx
        (some { Exchange := exchange, Pair := none, AssetType := assetType }) s = (.panic, s)
    ∧ RPCServer.AddEvent E ctx
        (some { Exchange := exchange, Item := item, ConditionParams := none, Pair := some p
                AssetType := assetType, Action := action }) s = (.panic, s)
    ∧ RPCServer.AddEvent E ctx
        (some { Exchange := exchange, Item := item, ConditionParams := c, Pair := none
                AssetType := assetType, Action := action }) s = (.panic, s) := by
  refine ⟨rfl, rfl, rfl, ?_⟩
  cases c <;> rfl

/-- C6: for every enabled-only flag `b` and every list `L` the engine returns for `b`,
`GetExchanges` succeeds with a nil error and its `Exchanges` field is the names of `L` joined
with "," in the engine's order: the library join of `L`, character for character the names with
one separator between neighbours, hence of length the total length of the names plus one less
than their number, and the empty string when `L` is empty.  With exchange A enabled and exchange
B disabled, `GetExchanges{enabled: true}` answers "A". -/
theorem getExchanges_joins_names {σ Ctx : Type} (E : Engine σ) (ctx : Ctx) (s s1 : σ) (b : Bool)
    (L : List String) (hL : E.GetExchanges b s = (L, s1)) :
    RPCServer.GetExchanges E ctx (some { Enabled := b }) s
        = (.ret (some { Exchanges := common.JoinStrings L "," }, none), s1)
    ∧ common.JoinStrings L "," = ",".intercalate L
    ∧ (common.JoinStrings L ",").data = List.intercalate [','] (L.map String.data)
    ∧ (common.JoinStrings L ",").length = (L.map String.length).sum + (L.length - 1)
    ∧ (L = [] → common.JoinStrings L "," = "")
    ∧ (RPCServer.GetExchanges exampleEngine ctx (some { Enabled := true }) exampleState).1
        = .ret (some { Exchanges := "A" }, none) := by
  refine ⟨?_, joinStrings_eq_intercalate _ _, joinStrings_data _ _, ?_, ?_, rfl⟩
  · simp [RPCServer.GetExchanges, hL]
  · have h := joinStrings_length "," L
    have h1 : ",".length = 1 := rfl
    rw [h1, Nat.mul_one] at h
    exact h
  · rintro rfl; rfl

/-- Instance of C6 at the example engine with A enabled and B disabled, all exchanges listed. -/
theorem getExchanges_joins_names_witness :
    exampleEngine.GetExchanges false exampleState
        = (["A", "B"], { exampleState with calls := ["GetExchanges"] })
    ∧ RPCServer.GetExchanges exampleEngine () (some { Enabled := false }) exampleState
        = (.ret (some { Exchanges := "A,B" }, none),
            { exampleState with calls := ["GetExchanges"] }) :=
  ⟨rfl, (getExchanges_joins_names exampleEngine () exampleState _ false ["A", "B"] rfl).1⟩

/-- C3: for a well-formed request (no nil pointer among the fields the handler reads),
`EnableExchange`, `DisableExchange`, `GetTicker`, `GetOrderbook` and `AddEvent` return as their
error exactly the error value of their one engine call, nil when that is nil, and leave the
state the engine call produced; when the engine error of `GetTicker`, `GetOrderbook` or
`AddEvent` is not nil the response is nil. -/
theorem facade_error_returned_unchanged {σ Ctx : Type} (Ack : Type) [GoZero Ack] (E : Engine σ)
    (ctx : Ctx) (s : σ) (rn : gctrpc.GenericExchangeNameRequest)
    (rt : gctrpc.GetTickerRequest) (ro : gctrpc.GetOrderbookRequest)
    (ra : gctrpc.AddEventRequest) (pt po pa : gctrpc.CurrencyPair)
    (c : gctrpc.ConditionParams)
    (ht : rt.Pair = some pt) (ho : ro.Pair = some po) (ha : ra.Pair = some pa)
    (hc : ra.ConditionParams = some c) :
    (RPCServer.EnableExchange E ctx (some rn) s : Outcome (Reply Ack) × σ)
        = (.ret (some GoZero.zero, (E.LoadExchange rn.Exchange false none s).1),
            (E.LoadExchange rn.Exchange false none s).2)
    ∧ (RPCServer.DisableExchange E ctx (some rn) s : Outcome (Reply Ack) × σ)
        = (.ret (some GoZero.zero, (E.UnloadExchange rn.Exchange s).1),
            (E.UnloadExchange rn.Exchange s).2)
    ∧ (∃ resp, RPCServer.GetTicker E ctx (some rt) s
        = (.ret (resp,
              (E.GetSpecificTicker (decodePair pt) rt.Exchange ⟨rt.AssetType⟩ s).1.2),
            (E.GetSpecificTicker (decodePair pt) rt.Exchange ⟨rt.AssetType⟩ s).2)
        ∧ ((E.GetSpecificTicker (decodePair pt) rt.Exchange ⟨rt.AssetType⟩ s).1.2 ≠ none
            → resp = none))
    ∧ (∃ resp, RPCServer.GetOrderbook E ctx (some ro) s
        = (.ret (resp,
              (E.GetSpecificOrderbook (decodePair po) ro.Exchange ⟨ro.AssetType⟩ s).1.2),
            (E.GetSpecificOrderbook (decodePair po) ro.Exchange ⟨ro.AssetType⟩ s).2)
        ∧ ((E.GetSpecificOrderbook (decodePair po) ro.Exchange ⟨ro.AssetType⟩ s).1.2 ≠ none
            → resp = none))
    ∧ (∃ resp, RPCServer.AddEvent E ctx (some ra) s
        = (.ret (resp,
              (E.eventsAdd ra.Exchange ra.Item
                ⟨c.CheckBids, c.CheckBidsAndAsks, c.Condition, c.OrderbookAmount, c.Price⟩
                (decodePair pa) ⟨ra.AssetType⟩ ra.Action s).1.2),
            (E.eventsAdd ra.Exchange ra.Item
                ⟨c.CheckBids, c.CheckBidsAndAsks, c.Condition, c.OrderbookAmount, c.Price⟩
                (decodePair pa) ⟨ra.AssetType⟩ ra.Action s).2)
        ∧ ((E.eventsAdd ra.Exchange ra.Item
                ⟨c.CheckBids, c.CheckBidsAndAsks, c.Condition, c.OrderbookAmount, c.Price⟩
                (decodePair pa) ⟨ra.AssetType⟩ ra.Action s).1.2 ≠ none
            → resp = none)) := by
  refine ⟨rfl, rfl, ?_, ?_, ?_⟩
  · rcases hT : E.GetSpecificTicker (decodePair pt) rt.Exchange ⟨rt.AssetType⟩ s
      with ⟨⟨t, err⟩, s1⟩
    cases err with
    | none => exact ⟨_, getTicker_ok E ctx s s1 rt pt t ht hT, fun h => absurd rfl h⟩
    | some e => exact ⟨none, getTicker_err E ctx s s1 rt pt t e ht hT, fun _ => rfl⟩
  · rcases hO : E.GetSpecificOrderbook (decodePair po) ro.Exchange ⟨ro.AssetType⟩ s
      with ⟨⟨ob, err⟩, s1⟩
    cases err with
    | none => exact ⟨_, getOrderbook_ok E ctx s s1 ro po ob ho hO, fun h => absurd rfl h⟩
    | some e => exact ⟨none, getOrderbook_err E ctx s s1 ro po ob e ho hO, fun _ => rfl⟩
  · rcases hA : E.eventsAdd ra.Exchange ra.Item
        ⟨c.CheckBids, c.CheckBidsAndAsks, c.Condition, c.OrderbookAmount, c.Price⟩
        (decodePair pa) ⟨ra.AssetType⟩ ra.Action s with ⟨⟨id, err⟩, s1⟩
    cases err with
    | none => exact ⟨_, addEvent_result E ctx s s1 ra pa c id none ha hc hA, fun h => absurd rfl h⟩
    | some e => exact ⟨none, addEvent_result E ctx s s1 ra pa c id (some e) ha hc hA, fun _ => rfl⟩

/-- Instance of C3 at the example engine: the unknown exchange C makes every engine call fail,
and each handler returns that very error. -/
theorem facade_error_returned_unchanged_witness :
    (RPCServer.EnableExchange exampleEngine () (some ⟨"C"⟩) exampleState
        : Outcome (Reply EmptyMessage) × ExampleState).1
      = .ret (some {}, some ⟨"exchange not found"⟩)
    ∧ (RPCServer.GetTicker exampleEngine ()
        (some ⟨"C", some ⟨"-", "BTC", "USD"⟩, "SPOT"⟩) exampleState).1
      = .ret (none, some ⟨"no ticker data"⟩)
    ∧ (RPCServer.AddEvent exampleEngine ()
        (some ⟨"C", "PRICE", some ⟨true, false, ">", ⟨0⟩, ⟨9⟩⟩, some ⟨"-", "BTC", "USD"⟩,
          "SPOT", "SMS"⟩) exampleState).1
      = .ret (none, some ⟨"invalid exchange"⟩) := by
  have h := facade_error_returned_unchanged EmptyMessage exampleEngine ()
    exampleState ⟨"C"⟩ ⟨"C", some ⟨"-", "BTC", "USD"⟩, "SPOT"⟩
    ⟨"C", some ⟨"-", "BTC", "USD"⟩, "SPOT"⟩
    ⟨"C", "PRICE", some ⟨true, false, ">", ⟨0⟩, ⟨9⟩⟩, some ⟨"-", "BTC", "USD"⟩, "SPOT", "SMS"⟩
    ⟨"-", "BTC", "USD"⟩ ⟨"-", "BTC", "USD"⟩ ⟨"-", "BTC", "USD"⟩ ⟨true, false, ">", ⟨0⟩, ⟨9⟩⟩
    rfl rfl rfl rfl
  refine ⟨?_, ?_, ?_⟩
  · rw [h.1]; rfl
  · obtain ⟨resp, h1, h2⟩ := h.2.2.1
    rw [h1, h2 (by decide)]; rfl
  · obtain ⟨resp, h1, h2⟩ := h.2.2.2.2
    rw [h1, h2 (by decide)]; rfl

/-- C4: three independent statements, each for every engine, state and timestamp the engine
returns.  On success the `LastUpdated` field of the `GetTicker` response is the whole-second
part `s` of the engine's timestamp; with a sub-second part below one second the timestamp lies
in the second that starts at `LastUpdated`, so the value is never rounded up, also before the
epoch.  The same holds, on its own conditions only, for the `GetOrderbook` response, and, at
every position, for every ticker of a `GetTickers` response. -/
theorem lastUpdated_is_whole_seconds {σ Ctx : Type} (E : Engine σ) (ctx : Ctx) (s : σ) :
    (∀ (st : σ) (rt : gctrpc.GetTickerRequest) (pt : gctrpc.CurrencyPair) (t : ticker.Price),
      rt.Pair = some pt →
      E.GetSpecificTicker (decodePair pt) rt.Exchange ⟨rt.AssetType⟩ s = ((t, none), st) →
      t.LastUpdated.nsec < 1000000000 →
      ∃ resp, RPCServer.GetTicker E ctx (some rt) s = (.ret (some resp, none), st)
        ∧ resp.LastUpdated = t.LastUpdated.sec
        ∧ resp.LastUpdated * 1000000000 ≤ t.LastUpdated.UnixNano
        ∧ t.LastUpdated.UnixNano < (resp.LastUpdated + 1) * 1000000000)
    ∧ (∀ (so : σ) (ro : gctrpc.GetOrderbookRequest) (po : gctrpc.CurrencyPair)
        (ob : orderbook.Base),
      ro.Pair = some po →
      E.GetSpecificOrderbook (decodePair po) ro.Exchange ⟨ro.AssetType⟩ s = ((ob, none), so) →
      ob.LastUpdated.nsec < 1000000000 →
      ∃ resp, RPCServer.GetOrderbook E ctx (some ro) s = (.ret (some resp, none), so)
        ∧ resp.LastUpdated = ob.LastUpdated.sec
        ∧ resp.LastUpdated * 1000000000 ≤ ob.LastUpdated.UnixNano
        ∧ ob.LastUpdated.UnixNano < (resp.LastUpdated + 1) * 1000000000)
    ∧ (∀ (Req : Type) (sa : σ) (rq : Option Req) (A : List EnabledExchangeCurrencies),
      E.GetAllActiveTickers s = (A, sa) →
      ∃ resp, RPCServer.GetTickers E ctx rq s = (.ret (some resp, none), sa)
        ∧ ∀ (i j : Nat) (a : EnabledExchangeCurrencies) (u : ticker.Price),
            A[i]? = some a → a.ExchangeValues[j]? = some u →
            u.LastUpdated.nsec < 1000000000 →
            ∃ e w, resp.Tickers[i]? = some (some e) ∧ e.Tickers[j]? = some (some w)
              ∧ w.LastUpdated = u.LastUpdated.sec
              ∧ w.LastUpdated * 1000000000 ≤ u.LastUpdated.UnixNano
              ∧ u.LastUpdated.UnixNano < (w.LastUpdated + 1) * 1000000000) := by
  have key : ∀ x : time.Time, x.nsec < 1000000000 →
      x.Unix = x.sec ∧ x.Unix * 1000000000 ≤ x.UnixNano
        ∧ x.UnixNano < (x.Unix + 1) * 1000000000 := by
    intro x hx
    refine ⟨rfl, ?_, ?_⟩ <;> simp only [time.Time.Unix, time.Time.UnixNano] <;> omega
  refine ⟨?_, ?_, ?_⟩
  · intro st rt pt t ht hT hnt
    exact ⟨_, getTicker_ok E ctx s st rt pt t ht hT, key _ hnt⟩
  · intro so ro po ob ho hO hno
    exact ⟨_, getOrderbook_ok E ctx s so ro po ob ho hO, key _ hno⟩
  · intro Req sa rq A hA
    refine ⟨_, getTickers_result E ctx rq s sa A hA, ?_⟩
    intro i j a u hi hj hu
    refine ⟨⟨a.ExchangeName, a.ExchangeValues.map (fun t => some (tickerToWire t))⟩,
      tickerToWire u, ?_, ?_, ?_⟩
    · simp [List.getElem?_map, hi]
    · simp [List.getElem?_map, hj]
    · exact key _ hu

/-- Instance of C4 at the example engine.  Its ticker timestamp is 1.25 seconds before the epoch
(seconds -2, nanoseconds 750000000) and `LastUpdated` is -2; this holds for `GetTicker` as well as
for the ticker listed by `GetTickers`, and for the orderbook stamped 5.999999999 seconds
`LastUpdated` is 5. -/
theorem lastUpdated_is_whole_seconds_witness :
    (exampleTicker (decodePair ⟨"-", "BTC", "USD"⟩)).LastUpdated = ⟨-2, 750000000⟩
    ∧ (∃ resp, RPCServer.GetTicker exampleEngine ()
          (some ⟨"A", some ⟨"-", "BTC", "USD"⟩, "SPOT"⟩) exampleState
        = (.ret (some resp, none), { exampleState with calls := ["GetSpecificTicker"] })
      ∧ resp.LastUpdated = -2
      ∧ resp.LastUpdated * 1000000000 ≤ -1250000000
      ∧ -1250000000 < (resp.LastUpdated + 1) * 1000000000)
    ∧ (∃ resp, RPCServer.GetOrderbook exampleEngine ()
          (some ⟨"A", some ⟨"-", "BTC", "USD"⟩, "SPOT"⟩) exampleState
        = (.ret (some resp, none), { exampleState with calls := ["GetSpecificOrderbook"] })
      ∧ resp.LastUpdated = 5
      ∧ resp.LastUpdated * 1000000000 ≤ 5999999999
      ∧ 5999999999 < (resp.LastUpdated + 1) * 1000000000)
    ∧ (∃ resp, RPCServer.GetTickers exampleEngine () (none : Option EmptyMessage) exampleState
        = (.ret (some resp, none), { exampleState with calls := ["GetAllActiveTickers"] })
      ∧ ∃ e w, resp.Tickers[0]? = some (some e) ∧ e.Tickers[0]? = some (some w)
          ∧ w.LastUpdated = -2
          ∧ w.LastUpdated * 1000000000 ≤ -1250000000
          ∧ -1250000000 < (w.LastUpdated + 1) * 1000000000) :=
  ⟨rfl,
   (lastUpdated_is_whole_seconds exampleEngine () exampleState).1
      { exampleState with calls := ["GetSpecificTicker"] }
      ⟨"A", some ⟨"-", "BTC", "USD"⟩, "SPOT"⟩ ⟨"-", "BTC", "USD"⟩
      (exampleTicker (decodePair ⟨"-", "BTC", "USD"⟩)) rfl rfl (by decide),
   (lastUpdated_is_whole_seconds exampleEngine () exampleState).2.1
      { exampleState with calls := ["GetSpecificOrderbook"] }
      ⟨"A", some ⟨"-", "BTC", "USD"⟩, "SPOT"⟩ ⟨"-", "BTC", "USD"⟩ exampleOrderbook
      rfl rfl (by decide),
   ((lastUpdated_is_whole_seconds exampleEngine () exampleState).2.2 EmptyMessage
      { exampleState with calls := ["GetAllActiveTickers"] } none
      [{ ExchangeName := "A", ExchangeValues := [exampleTicker ⟨"-", ⟨"BTC"⟩, ⟨"USD"⟩⟩] }]
      rfl).imp (fun _ h => ⟨h.1, h.2 0 0
        { ExchangeName := "A", ExchangeValues := [exampleTicker ⟨"-", ⟨"BTC"⟩, ⟨"USD"⟩⟩] }
        (exampleTicker ⟨"-", ⟨"BTC"⟩, ⟨"USD"⟩⟩) rfl rfl (by decide)⟩)⟩

/-- C5: decoding a wire currency pair as `GetTicker`, `GetOrderbook` and `AddEvent` do and
encoding the result as `GetTickers` does gives back the wire pair, equal in delimiter, first
currency and second currency, also when the delimiter is empty; encoding an internal pair and
decoding the result gives back the internal pair; and the pair of the response that `GetTickers`
builds for a ticker holding the decoded pair is the wire pair. -/
theorem currency_pair_round_trip (w : gctrpc.CurrencyPair) (p : pair.CurrencyPair)
    (t : ticker.Price) (first second : String) :
    encodePair (decodePair w) = w
    ∧ (encodePair (decodePair w)).Delimiter = w.Delimiter
    ∧ (encodePair (decodePair w)).FirstCurrency = w.FirstCurrency
    ∧ (encodePair (decodePair w)).SecondCurrency = w.SecondCurrency
    ∧ encodePair (decodePair ⟨"", first, second⟩) = ⟨"", first, second⟩
    ∧ decodePair (encodePair p) = p
    ∧ (tickerToWire { t with Pair := decodePair w }).Pair = some w :=
  ⟨rfl, rfl, rfl, rfl, rfl, rfl, rfl⟩

/-- C7: for a `GetOrderbook` request with a pair on which the engine succeeds with orderbook
`ob`, the response has as many bids as `ob`, its i-th bid is a non-nil item with the amount and
price of the i-th bid of `ob` and there is none beyond; likewise for the asks; and the
response's pair and asset type are those of the request. -/
theorem getOrderbook_preserves_items {σ Ctx : Type} (E : Engine σ) (ctx : Ctx) (s s1 : σ)
    (r : gctrpc.GetOrderbookRequest) (p : gctrpc.CurrencyPair) (ob : orderbook.Base)
    (hp : r.Pair = some p)
    (hO : E.GetSpecificOrderbook (decodePair p) r.Exchange ⟨r.AssetType⟩ s
      = ((ob, none), s1)) :
    ∃ resp, RPCServer.GetOrderbook E ctx (some r) s = (.ret (some resp, none), s1)
      ∧ resp.Bids.length = ob.Bids.length
      ∧ (∀ i : Nat, resp.Bids[i]?
          = (ob.Bids[i]?).map (fun x => some { Amount := x.Amount, Price := x.Price }))
      ∧ resp.Asks.length = ob.Asks.length
      ∧ (∀ i : Nat, resp.Asks[i]?
          = (ob.Asks[i]?).map (fun x => some { Amount := x.Amount, Price := x.Price }))
      ∧ resp.Pair = r.Pair
      ∧ resp.AssetType = r.AssetType := by
  refine ⟨_, getOrderbook_ok E ctx s s1 r p ob hp hO, ?_, ?_, ?_, ?_, rfl, rfl⟩
  · simp
  · intro i; simp [List.getElem?_map]
  · simp
  · intro i; simp [List.getElem?_map]

/-- Instance of C7 at the example engine: two bids and one ask, in the engine's order. -/
theorem getOrderbook_preserves_items_witness :
    ∃ resp, RPCServer.GetOrderbook exampleEngine ()
          (some ⟨"A", some ⟨"", "BTC", "USD"⟩, "SPOT"⟩) exampleState
        = (.ret (some resp, none), { exampleState with calls := ["GetSpecificOrderbook"] })
      ∧ resp.Bids.length = 2
      ∧ (∀ i : Nat, resp.Bids[i]?
          = ([(⟨⟨10⟩, ⟨11⟩⟩ : orderbook.Item), ⟨⟨12⟩, ⟨13⟩⟩][i]?).map
              (fun x => some { Amount := x.Amount, Price := x.Price }))
      ∧ resp.Asks.length = 1
      ∧ (∀ i : Nat, resp.Asks[i]?
          = ([(⟨⟨20⟩, ⟨21⟩⟩ : orderbook.Item)][i]?).map
              (fun x => some { Amount := x.Amount, Price := x.Price }))
      ∧ resp.Pair = some ⟨"", "BTC", "USD"⟩
      ∧ resp.AssetType = "SPOT" :=
  getOrderbook_preserves_items exampleEngine () exampleState
    { exampleState with calls := ["GetSpecificOrderbook"] }
    ⟨"A", some ⟨"", "BTC", "USD"⟩, "SPOT"⟩ ⟨"", "BTC", "USD"⟩ exampleOrderbook rfl rfl

/-- C8: for every request, `GetForexRates` returns an error and no response exactly when the
engine's `GetExchangeRates` gives the nil mapping, the error being the freshly built "forex
rates is empty"; otherwise it succeeds with a nil error and a response whose `ForexRates` is
the engine's mapping unchanged. -/
theorem getForexRates_fails_iff_unavailable {σ Ctx Req : Type} (E : Engine σ) (ctx : Ctx)
    (r : Option Req) (s s1 : σ) (rates : RatesMap) (hR : E.GetExchangeRates s = (rates, s1)) :
    (rates = none →
      RPCServer.GetForexRates E ctx r s
        = (.ret (none, some (fmt.Errorf "forex rates is empty")), s1))
    ∧ (rates ≠ none →
      RPCServer.GetForexRates E ctx r s = (.ret (some { ForexRates := rates }, none), s1))
    ∧ ((∃ e, RPCServer.GetForexRates E ctx r s = (.ret (none, some e), s1)) ↔ rates = none) := by
  cases rates with
  | none =>
    have h : RPCServer.GetForexRates E ctx r s
        = (.ret (none, some (fmt.Errorf "forex rates is empty")), s1) := by
      simp [RPCServer.GetForexRates, hR]
    exact ⟨fun _ => h, fun hn => absurd rfl hn, ⟨fun _ => rfl, fun _ => ⟨_, h⟩⟩⟩
  | some m =>
    have h : RPCServer.GetForexRates E ctx r s
        = (.ret (some { ForexRates := some m }, none), s1) := by
      simp [RPCServer.GetForexRates, hR]
    refine ⟨fun hn => Option.noConfusion hn, fun _ => h, ⟨?_, fun hn => Option.noConfusion hn⟩⟩
    rintro ⟨e, he⟩
    rw [h] at he
    simp at he

/-- Instance of C8 at the example engine: with no exchange configured the rates are nil and the
call fails; with the two exchanges of the scenario the mapping is passed through. -/
theorem getForexRates_fails_iff_unavailable_witness :
    RPCServer.GetForexRates exampleEngine () (none : Option EmptyMessage) ⟨[], []⟩
        = (.ret (none, some ⟨"forex rates is empty"⟩), ⟨[], ["GetExchangeRates"]⟩)
    ∧ RPCServer.GetForexRates exampleEngine () (none : Option EmptyMessage) exampleState
        = (.ret (some { ForexRates := some [("USD", ⟨1⟩), ("EUR", ⟨2⟩)] }, none),
            { exampleState with calls := ["GetExchangeRates"] }) :=
  ⟨(getForexRates_fails_iff_unavailable exampleEngine () none ⟨[], []⟩
      ⟨[], ["GetExchangeRates"]⟩ none rfl).1 rfl,
   (getForexRates_fails_iff_unavailable exampleEngine () none exampleState
      { exampleState with calls := ["GetExchangeRates"] }
      (some [("USD", ⟨1⟩), ("EUR", ⟨2⟩)]) rfl).2.1 (by decide)⟩

/-- C9: for every list `A` the engine's `GetAllActiveTickers` returns, `GetTickers` succeeds and
its response has one entry per element of `A`, in order: the i-th entry is non-nil, carries the
i-th exchange name and has one non-nil ticker per ticker of `A[i]`, in order and no other, the
j-th with the pair (delimiter and the two currency strings), currency-pair string, last, high,
low, bid, ask, volume and all-time-high price of the j-th ticker of `A[i]`. -/
theorem getTickers_one_entry_per_exchange {σ Ctx Req : Type} (E : Engine σ) (ctx : Ctx)
    (r : Option Req) (s s1 : σ) (A : List EnabledExchangeCurrencies)
    (hA : E.GetAllActiveTickers s = (A, s1)) :
    ∃ resp, RPCServer.GetTickers E ctx r s = (.ret (some resp, none), s1)
      ∧ resp.Tickers.length = A.length
      ∧ ∀ (i : Nat) (a : EnabledExchangeCurrencies), A[i]? = some a →
          ∃ e, resp.Tickers[i]? = some (some e)
            ∧ e.Exchange = a.ExchangeName
            ∧ e.Tickers.length = a.ExchangeValues.length
            ∧ ∀ (j : Nat) (t : ticker.Price), a.ExchangeValues[j]? = some t →
                ∃ w, e.Tickers[j]? = some (some w)
                  ∧ w.Pair = some ⟨t.Pair.Delimiter, t.Pair.FirstCurrency.String,
                      t.Pair.SecondCurrency.String⟩
                  ∧ w.CurrencyPair = t.CurrencyPair
                  ∧ w.Last = t.Last ∧ w.High = t.High ∧ w.Low = t.Low
                  ∧ w.Bid = t.Bid ∧ w.Ask = t.Ask ∧ w.Volume = t.Volume
                  ∧ w.PriceAth = t.PriceATH := by
  refine ⟨_, getTickers_result E ctx r s s1 A hA, by simp, ?_⟩
  intro i a hi
  refine ⟨⟨a.ExchangeName, a.ExchangeValues.map (fun t => some (tickerToWire t))⟩,
    by simp [List.getElem?_map, hi], rfl, by simp, ?_⟩
  intro j t hj
  exact ⟨tickerToWire t, by simp [List.getElem?_map, hj], rfl, rfl, rfl, rfl, rfl, rfl, rfl,
    rfl, rfl⟩

/-- Instance of C9 at an engine state with two enabled exchanges: two entries, each with its own
single ticker. -/
theorem getTickers_one_entry_per_exchange_witness :
    RPCServer.GetTickers exampleEngine () (none : Option EmptyMessage)
        ⟨[("A", true), ("B", false), ("C", true)], []⟩
      = (.ret (some { Tickers :=
            [some ⟨"A", [some (tickerToWire (exampleTicker ⟨"-", ⟨"BTC"⟩, ⟨"USD"⟩⟩))]⟩,
             some ⟨"C", [some (tickerToWire (exampleTicker ⟨"-", ⟨"BTC"⟩, ⟨"USD"⟩⟩))]⟩] }, none),
          ⟨[("A", true), ("B", false), ("C", true)], ["GetAllActiveTickers"]⟩)
    ∧ ∃ resp, RPCServer.GetTickers exampleEngine () (none : Option EmptyMessage)
          ⟨[("A", true), ("B", false), ("C", true)], []⟩
        = (.ret (some resp, none),
            ⟨[("A", true), ("B", false), ("C", true)], ["GetAllActiveTickers"]⟩)
      ∧ resp.Tickers.length = 2 :=
  ⟨rfl,
   (getTickers_one_entry_per_exchange exampleEngine () (none : Option EmptyMessage)
      ⟨[("A", true), ("B", false), ("C", true)], []⟩
      ⟨[("A", true), ("B", false), ("C", true)], ["GetAllActiveTickers"]⟩
      [⟨"A", [exampleTicker ⟨"-", ⟨"BTC"⟩, ⟨"USD"⟩⟩]⟩, ⟨"C", [exampleTicker ⟨"-", ⟨"BTC"⟩, ⟨"USD"⟩⟩]⟩]
      rfl).imp (fun _ h => ⟨h.1, h.2.1⟩)⟩

/-- C10: the `getexchanges` command sets the `Enabled` field of the one request it sends to
whether the flag was given on the command line, not to the flag's boolean value.  With the flag
given the value false (`--enabled=false`) the flag's value is false and the request carries
`Enabled = true`; with the flag omitted it carries false, with the flag given true it carries
true. -/
theorem getexchanges_flag_given_false_sends_true
    (client : gctrpc.GetExchangesRequest → Reply gctrpc.GetExchangesResponse) :
    cli.Context.Bool ⟨[("enabled", false)]⟩ "enabled" = false
    ∧ (getExchanges none client ⟨[("enabled", false)]⟩).sent = [{ Enabled := true }]
    ∧ (getExchanges none client ⟨[]⟩).sent = [{ Enabled := false }]
    ∧ (getExchanges none client ⟨[("enabled", true)]⟩).sent = [{ Enabled := true }] := by
  refine ⟨rfl, ?_, ?_, ?_⟩ <;>
    · simp only [getExchanges]
      rcases client _ with ⟨resp, _ | e⟩ <;> rfl
